import Mathlib

/-!
# Verification of the bad/good demo pattern of the React-misconceptions app

Shallow embedding of the state and event handlers of the five topic pages
(list identity / index-as-key, useMemo re-render cost, context slicing,
derived state via useEffect, and the toggleable bad/good page host), with
theorems settling the specification's testable properties.

Modelling conventions, applied uniformly:
* Component state (`useState`) becomes a Lean structure; each event handler
  becomes a function on that structure, transcribed from the source.
* A "render pass" is one evaluation of a component body.  The render-count
  instrumentation (`useEffect(() => setRenderCount(prev => prev + 1))`)
  is modelled as a meta-level counter that increments once per completed
  render pass, exactly as the data model of the specification describes it
  ("increments by exactly 1 at the end of every completed render pass");
  its own bookkeeping update is not itself counted as a render.
* JavaScript objects used as dictionaries (`{ ...prev, [k]: v }`,
  `delete obj[k]`, `obj[k] || ''`) become association lists with
  overwrite, delete and defaulting lookup.
-/

namespace IndexAsKey

/-- One task row of the index-as-key page: `{ id, text, color, completed }`. -/
structure Item where
  id : Nat
  text : String
  color : String
  completed : Bool
deriving Repr, DecidableEq

/-- Lookup in a JS object used as a map, with the `obj[k] || ''` default. -/
def objGet (m : List (Nat × String)) (k : Nat) : String :=
  match m.find? (fun p => p.1 == k) with
  | some p => p.2
  | none => ""

/-- Spread update `{ ...prev, [k]: v }`: overwrite the binding for `k`. -/
def objSet (m : List (Nat × String)) (k : Nat) (v : String) : List (Nat × String) :=
  (k, v) :: m.filter (fun p => p.1 != k)

/-- Key removal `delete obj[k]` on a copied object. -/
def objDelete (m : List (Nat × String)) (k : Nat) : List (Nat × String) :=
  m.filter (fun p => p.1 != k)

/-- The initial `items` of both list variants. -/
def initialItems : List Item :=
  [⟨1, "Task 1", "bg-red-100", false⟩,
   ⟨2, "Task 2", "bg-blue-100", false⟩,
   ⟨3, "Task 3", "bg-green-100", false⟩]

/-- State of `BadImplementation`: items plus the index-keyed `inputValues`. -/
structure BadListState where
  items : List Item
  inputValues : List (Nat × String)
deriving Repr, DecidableEq

/-- Mount state of the bad variant. -/
def badListInitial : BadListState := ⟨initialItems, []⟩

/-- Bad `deleteItem(index)`: `prev.filter((_, i) => i !== index)`;
`inputValues` is left untouched. -/
def badDeleteItem (st : BadListState) (index : Nat) : BadListState :=
  { st with items := ((st.items.enum.filter (fun p => p.1 != index)).map Prod.snd) }

/-- Bad `handleInputChange(index, value)`: store the text under the row index. -/
def badHandleInputChange (st : BadListState) (index : Nat) (value : String) : BadListState :=
  { st with inputValues := objSet st.inputValues index value }

/-- What the bad variant renders: for each position, the item id shown there and
the controlled input's displayed text `inputValues[index] || ''`. -/
def badRenderRows (st : BadListState) : List (Nat × Nat × String) :=
  st.items.enum.map (fun p => (p.1, p.2.id, objGet st.inputValues p.1))

/-- State of `GoodImplementation`: items plus the id-keyed `inputValues`. -/
structure GoodListState where
  items : List Item
  inputValues : List (Nat × String)
deriving Repr, DecidableEq

/-- Mount state of the good variant. -/
def goodListInitial : GoodListState := ⟨initialItems, []⟩

/-- Good `deleteItem(id)`: filter by id and delete that id's input value. -/
def goodDeleteItem (st : GoodListState) (id : Nat) : GoodListState :=
  { items := st.items.filter (fun it => it.id != id),
    inputValues := objDelete st.inputValues id }

/-- Good `handleInputChange(id, value)`: store the text under the item id. -/
def goodHandleInputChange (st : GoodListState) (id : Nat) (value : String) : GoodListState :=
  { st with inputValues := objSet st.inputValues id value }

/-- What the good variant renders: position, item id, and the displayed text
`inputValues[item.id] || ''`. -/
def goodRenderRows (st : GoodListState) : List (Nat × Nat × String) :=
  st.items.enum.map (fun p => (p.1, p.2.id, objGet st.inputValues p.2.id))

/-- The claim scenario on the bad variant: type "a","b","c" into the three rows
(ids 1,2,3 at indices 0,1,2), then delete the item with id 1 (index 0). -/
def badScenario : BadListState :=
  badDeleteItem
    (badHandleInputChange
      (badHandleInputChange
        (badHandleInputChange badListInitial 0 "a") 1 "b") 2 "c")
    0

/-- The claim scenario on the good variant: type "a","b","c" into the rows of
ids 1,2,3, then delete the item with id 1. -/
def goodScenario : GoodListState :=
  goodDeleteItem
    (goodHandleInputChange
      (goodHandleInputChange
        (goodHandleInputChange goodListInitial 1 "a") 2 "b") 3 "c")
    1

end IndexAsKey

namespace IndexAsKey

/-- C1, counterexample: in the bad variant's scenario (texts "a","b","c" on ids
1,2,3, then delete id 1) the row at position 0 is visually item id 2 but its
displayed ephemeral text is `"a"`, not `"b"` as the claim states. -/
theorem c1_bad_row0_not_b :
    (badRenderRows badScenario).head? = some (0, 2, "a") ∧
    ¬ (badRenderRows badScenario).head? = some (0, 2, "b") := by
  constructor
  · rfl
  · decide

/-- C1, amended: after deleting id 1 in the bad variant, position 0 shows item
id 2 with the deleted item 1's ephemeral text `"a"` (the state bleed), and
position 1 shows item id 3 with item 2's former text `"b"`. -/
theorem c1_bad_state_bleed :
    badRenderRows badScenario = [(0, 2, "a"), (1, 3, "b")] := by
  decide

/-- C2: after deleting id 1 in the good variant, the remaining rows are ids
`[2, 3]` and each still displays its own ephemeral text, `"b"` and `"c"`,
keyed by its own id — no shift or bleed. -/
theorem c2_good_delete_preserves_texts :
    goodRenderRows goodScenario = [(0, 2, "b"), (1, 3, "c")] ∧
    objGet goodScenario.inputValues 2 = "b" ∧
    objGet goodScenario.inputValues 3 = "c" := by
  refine ⟨by decide, by decide, by decide⟩

/-- The module-level id generator: `const generateId = () => nextId++` returns
the current counter and leaves it incremented. -/
def generateId (nextId : Nat) : Nat × Nat := (nextId, nextId + 1)

/-- The initial value of the module-level counter: `let nextId = 4`. -/
def nextIdInitial : Nat := 4

/-- Events of the list-identity topic that touch the shared id counter.  Both
variants' `addItem` call the one module-level `generateId`; the bad variant
calls it twice per append (once for `id`, once inside the `Task ${...}` text).
Deletions and remounts of either variant never touch the counter. -/
inductive ListEvent where
  | badAdd
  | goodAdd
  | badDelete (index : Nat)
  | goodDelete (id : Nat)
  | remount
deriving Repr, DecidableEq

/-- Generator state: the module-level counter plus the log of ids assigned to
appended items, in order of assignment. -/
structure IdGenState where
  nextId : Nat
  assigned : List Nat
deriving Repr, DecidableEq

/-- One event's action on the shared generator state, transcribed from the two
`addItem` handlers (`id: generateId()` and, in the bad variant, a second
`generateId()` for the task text). -/
def idGenStep (st : IdGenState) : ListEvent → IdGenState
  | ListEvent.badAdd =>
    let (id1, n1) := generateId st.nextId
    let (_, n2) := generateId n1
    { nextId := n2, assigned := st.assigned ++ [id1] }
  | ListEvent.goodAdd =>
    let (newId, n1) := generateId st.nextId
    { nextId := n1, assigned := st.assigned ++ [newId] }
  | ListEvent.badDelete _ => st
  | ListEvent.goodDelete _ => st
  | ListEvent.remount => st

/-- Run a sequence of list events against the shared generator state. -/
def idGenRun (st : IdGenState) (evs : List ListEvent) : IdGenState :=
  evs.foldl idGenStep st

/-- Invariant carried through the run: the counter strictly dominates every id
assigned so far, and the assigned ids are strictly increasing in order of
assignment. -/
def idGenInv (st : IdGenState) : Prop :=
  (∀ i ∈ st.assigned, i < st.nextId) ∧ st.assigned.Chain' (· < ·)

theorem idGenStep_inv (st : IdGenState) (ev : ListEvent) (h : idGenInv st) :
    idGenInv (idGenStep st ev) := by
  obtain ⟨hlt, hchain⟩ := h
  cases ev with
  | badAdd =>
    refine ⟨?_, ?_⟩
    · intro i hi
      simp only [idGenStep, generateId, List.mem_append, List.mem_singleton] at hi ⊢
      rcases hi with hi | hi
      · exact Nat.lt_trans (hlt i hi) (by omega)
      · omega
    · simp only [idGenStep, generateId]
      rw [List.chain'_append]
      refine ⟨hchain, List.chain'_singleton _, ?_⟩
      intro x hx y hy
      simp only [List.head?_cons, Option.mem_def, Option.some.injEq] at hy
      subst hy
      exact hlt x (List.mem_of_mem_getLast? hx)
  | goodAdd =>
    refine ⟨?_, ?_⟩
    · intro i hi
      simp only [idGenStep, generateId, List.mem_append, List.mem_singleton] at hi ⊢
      rcases hi with hi | hi
      · exact Nat.lt_trans (hlt i hi) (by omega)
      · omega
    · simp only [idGenStep, generateId]
      rw [List.chain'_append]
      refine ⟨hchain, List.chain'_singleton _, ?_⟩
      intro x hx y hy
      simp only [List.head?_cons, Option.mem_def, Option.some.injEq] at hy
      subst hy
      exact hlt x (List.mem_of_mem_getLast? hx)
  | badDelete idx => exact ⟨hlt, hchain⟩
  | goodDelete i => exact ⟨hlt, hchain⟩
  | remount => exact ⟨hlt, hchain⟩

theorem idGenRun_inv (st : IdGenState) (evs : List ListEvent) (h : idGenInv st) :
    idGenInv (idGenRun st evs) := by
  induction evs generalizing st with
  | nil => exact h
  | cons ev rest ih => exact ih _ (idGenStep_inv st ev h)

/-- The counter never goes below its starting point and only deletions and
remounts leave it unchanged; every id assigned during the run is at least the
starting counter value. -/
theorem idGenRun_lower (st : IdGenState) (evs : List ListEvent) :
    st.nextId ≤ (idGenRun st evs).nextId ∧
    ∀ i ∈ (idGenRun st evs).assigned, i ∈ st.assigned ∨ st.nextId ≤ i := by
  induction evs generalizing st with
  | nil => exact ⟨Nat.le_refl _, fun i hi => Or.inl hi⟩
  | cons ev rest ih =>
    have hstep : st.nextId ≤ (idGenStep st ev).nextId ∧
        ∀ i ∈ (idGenStep st ev).assigned, i ∈ st.assigned ∨ st.nextId ≤ i := by
      cases ev with
      | badAdd =>
        refine ⟨by simp [idGenStep, generateId]; omega, ?_⟩
        intro i hi
        simp only [idGenStep, generateId, List.mem_append, List.mem_singleton] at hi
        rcases hi with hi | hi
        · exact Or.inl hi
        · exact Or.inr (by omega)
      | goodAdd =>
        refine ⟨by simp [idGenStep, generateId], ?_⟩
        intro i hi
        simp only [idGenStep, generateId, List.mem_append, List.mem_singleton] at hi
        rcases hi with hi | hi
        · exact Or.inl hi
        · exact Or.inr (by omega)
      | badDelete idx => exact ⟨Nat.le_refl _, fun i hi => Or.inl hi⟩
      | goodDelete i => exact ⟨Nat.le_refl _, fun i hi => Or.inl hi⟩
      | remount => exact ⟨Nat.le_refl _, fun i hi => Or.inl hi⟩
    obtain ⟨h1, h2⟩ := ih (idGenStep st ev)
    refine ⟨Nat.le_trans hstep.1 h1, ?_⟩
    intro i hi
    rcases h2 i hi with hmem | hge
    · rcases hstep.2 i hmem with hmem' | hge'
      · exact Or.inl hmem'
      · exact Or.inr hge'
    · exact Or.inr (Nat.le_trans hstep.1 hge)

/-- C8: starting from the module-level counter `nextId = 4`, any interleaving
of appends, deletions and remounts across both variants assigns strictly
increasing ids (each fresh id exceeds every earlier one, so ids are unique and
never reused, even after deletion), and every assigned id is ≥ 4, hence
distinct from the preexisting ids 1, 2, 3. -/
theorem c8_ids_strictly_increasing (evs : List ListEvent) :
    (idGenRun ⟨nextIdInitial, []⟩ evs).assigned.Chain' (· < ·) ∧
    (idGenRun ⟨nextIdInitial, []⟩ evs).assigned.Pairwise (· ≠ ·) ∧
    ∀ i ∈ (idGenRun ⟨nextIdInitial, []⟩ evs).assigned, 4 ≤ i := by
  have hinv := idGenRun_inv ⟨nextIdInitial, []⟩ evs
    ⟨fun i hi => absurd hi (List.not_mem_nil i), List.chain'_nil⟩
  have hchain := hinv.2
  refine ⟨hchain, ?_, ?_⟩
  · exact (List.chain'_iff_pairwise.mp hchain).imp (fun h => Nat.ne_of_lt h)
  · intro i hi
    rcases (idGenRun_lower ⟨nextIdInitial, []⟩ evs).2 i hi with hmem | hge
    · cases hmem
    · exact hge

end IndexAsKey

namespace FearingReRenders

/-- One record of the synthetic dataset `generateItems` builds:
`{ id, name, value, category }`.  The numeric `value` is abstract here (the
source fills it with random numbers); only its ordering matters. -/
structure RItem where
  id : Nat
  name : String
  value : Int
  category : String
deriving Repr, DecidableEq

/-- Does `hay` start with `needle`? (character-list helper for `includes`). -/
def charsStartWith : List Char → List Char → Bool
  | _, [] => true
  | [], _ :: _ => false
  | c :: cs, d :: ds => c == d && charsStartWith cs ds

/-- JavaScript `hay.includes(needle)`: `needle` occurs contiguously in `hay`. -/
def charsContain (hay needle : List Char) : Bool :=
  match hay with
  | [] => needle.isEmpty
  | _ :: rest => charsStartWith hay needle || charsContain rest needle

/-- JavaScript `s.includes(sub)` on strings. -/
def strIncludes (s sub : String) : Bool := charsContain s.toList sub.toList

/-- The filter predicate of the bad variant's inline computation:
`item.name.toLowerCase().includes(filter.toLowerCase())` and
`category === 'ALL' || item.category === category`. -/
def badMatches (filter category : String) (item : RItem) : Bool :=
  strIncludes item.name.toLower filter.toLower &&
  (category == "ALL" || item.category == category)

/-- The identical filter predicate inside the good variant's `useMemo` body. -/
def goodMatches (filter category : String) (item : RItem) : Bool :=
  strIncludes item.name.toLower filter.toLower &&
  (category == "ALL" || item.category == category)

/-- Stable insertion for `.sort((a, b) => b.value - a.value)`: an element moves
past the head only while the head has strictly larger value, so ties keep
their original order (JavaScript's sort is stable). -/
def insertByValueDesc (x : RItem) : List RItem → List RItem
  | [] => [x]
  | y :: ys => if y.value > x.value then y :: insertByValueDesc x ys else x :: y :: ys

/-- Stable sort by descending `value`, shared by both variants the way both
source blocks share `Array.prototype.sort`. -/
def sortByValueDesc : List RItem → List RItem
  | [] => []
  | x :: xs => insertByValueDesc x (sortByValueDesc xs)

/-- The `filteredItems` of the bad variant: rebuilt inline on every render. -/
def badFilteredItems (items : List RItem) (filter category : String) : List RItem :=
  sortByValueDesc (items.filter (badMatches filter category))

/-- The `filteredItems` of the good variant: the `useMemo` body. -/
def goodFilteredItems (items : List RItem) (filter category : String) : List RItem :=
  sortByValueDesc (items.filter (goodMatches filter category))

/-- State of `GoodImplementation` of the useMemo page.  `memoDeps`/`memoValue`
model the memo cell: the dependency tuple of the last computation and its
cached result; `none` before the first computation. -/
structure GoodMemoState where
  filter : String
  category : String
  renderCount : Nat
  unrelatedState : Nat
  calculationCount : Nat
  memoDeps : Option (String × String)
  memoValue : List RItem
deriving Repr, DecidableEq

/-- One render pass of the good variant over dataset `items`: `useMemo`
recomputes (and bumps `calculationCount`) only when `[filter, category]`
differs by value from the cached dependency tuple; the render counter counts
the completed pass. -/
def goodRenderPass (items : List RItem) (st : GoodMemoState) : GoodMemoState :=
  let st' :=
    if st.memoDeps == some (st.filter, st.category) then st
    else
      { st with
        calculationCount := st.calculationCount + 1,
        memoValue := goodFilteredItems items st.filter st.category,
        memoDeps := some (st.filter, st.category) }
  { st' with renderCount := st'.renderCount + 1 }

/-- The `useState` initial values of the good variant, before the first render. -/
def goodMemoInitial : GoodMemoState :=
  ⟨"", "ALL", 0, 0, 0, none, []⟩

/-- Mount = the first render pass on the initial state. -/
def goodMemoMount (items : List RItem) : GoodMemoState :=
  goodRenderPass items goodMemoInitial

/-- Clicking the unrelated counter button in the good variant:
`setUnrelatedState(prev => prev + 1)` followed by the render it triggers. -/
def goodClickUnrelated (items : List RItem) (st : GoodMemoState) : GoodMemoState :=
  goodRenderPass items { st with unrelatedState := st.unrelatedState + 1 }

/-- State of `BadImplementation` of the useMemo page.  `computations` counts
how many times the inline filter+sort has executed (the source runs it in the
component body, i.e. exactly once per render pass). -/
structure BadMemoState where
  filter : String
  category : String
  renderCount : Nat
  unrelatedState : Nat
  computations : Nat
  filteredItems : List RItem
deriving Repr, DecidableEq

/-- One render pass of the bad variant: the filter+sort runs unconditionally. -/
def badRenderPass (items : List RItem) (st : BadMemoState) : BadMemoState :=
  { st with
    renderCount := st.renderCount + 1,
    computations := st.computations + 1,
    filteredItems := badFilteredItems items st.filter st.category }

/-- The `useState` initial values of the bad variant, before the first render. -/
def badMemoInitial : BadMemoState :=
  ⟨"", "ALL", 0, 0, 0, []⟩

/-- Mount = the first render pass on the initial state. -/
def badMemoMount (items : List RItem) : BadMemoState :=
  badRenderPass items badMemoInitial

/-- Clicking the unrelated counter button in the bad variant. -/
def badClickUnrelated (items : List RItem) (st : BadMemoState) : BadMemoState :=
  badRenderPass items { st with unrelatedState := st.unrelatedState + 1 }

/-- C10: for every dataset and every `(filter, category)` pair, the bad
variant's inline filter+sort and the good variant's memoized body return
element-for-element equal lists: both apply the same case-insensitive
substring match on the name, the same category test with `"ALL"` accepting
everything, and the same descending sort by value. -/
theorem c10_bad_good_filter_equivalent (items : List RItem) (filter category : String) :
    badFilteredItems items filter category = goodFilteredItems items filter category := rfl

/-- C5, counterexample: run each variant on a one-element dataset — mount, then
click the unrelated counter once.  In the bad variant render count and
computation count remain equal (2 = 2: no divergence), while in the good
variant they diverge (render count 2, calculation count 1).  So the claim's
"render count and computation count diverge only in the bad variant" is false:
the divergence occurs only in the good variant. -/
theorem c5_divergence_in_good_not_bad :
    (badClickUnrelated [⟨0, "Item 0", 5, "A"⟩] (badMemoMount [⟨0, "Item 0", 5, "A"⟩])).renderCount =
      (badClickUnrelated [⟨0, "Item 0", 5, "A"⟩] (badMemoMount [⟨0, "Item 0", 5, "A"⟩])).computations ∧
    ¬ (goodClickUnrelated [⟨0, "Item 0", 5, "A"⟩] (goodMemoMount [⟨0, "Item 0", 5, "A"⟩])).renderCount =
      (goodClickUnrelated [⟨0, "Item 0", 5, "A"⟩] (goodMemoMount [⟨0, "Item 0", 5, "A"⟩])).calculationCount := by
  refine ⟨rfl, by decide⟩

/-- C5, amended: an unrelated state update leaves the good variant's
calculation counter unchanged (the memo is skipped because `[filter,
category]` is value-equal to the previous render's dependency tuple) while its
render count still advances; the bad variant re-executes the filter+sort on
every render, so there its render count and computation count advance in
lockstep — the two counters diverge only in the good variant. -/
theorem c5_unrelated_update_counts (items : List RItem)
    (gst : GoodMemoState) (bst : BadMemoState)
    (hg : gst.memoDeps = some (gst.filter, gst.category))
    (hb : bst.renderCount = bst.computations) :
    (goodClickUnrelated items gst).calculationCount = gst.calculationCount ∧
    (goodClickUnrelated items gst).renderCount = gst.renderCount + 1 ∧
    (badClickUnrelated items bst).computations = bst.computations + 1 ∧
    (badClickUnrelated items bst).renderCount = (badClickUnrelated items bst).computations := by
  refine ⟨?_, ?_, rfl, ?_⟩
  · simp [goodClickUnrelated, goodRenderPass, hg]
  · simp [goodClickUnrelated, goodRenderPass, hg]
  · simp [badClickUnrelated, badRenderPass, hb]

/-- Witness for C5's amended theorem at the mounted states over a concrete
one-element dataset: after the mount render the good variant's memo deps match
its state and the bad variant's two counters are equal, so the hypotheses hold
concretely. -/
theorem c5_unrelated_update_counts_witness :
    (goodClickUnrelated [⟨0, "Item 0", 5, "A"⟩] (goodMemoMount [⟨0, "Item 0", 5, "A"⟩])).calculationCount =
      (goodMemoMount [⟨0, "Item 0", 5, "A"⟩]).calculationCount ∧
    (goodClickUnrelated [⟨0, "Item 0", 5, "A"⟩] (goodMemoMount [⟨0, "Item 0", 5, "A"⟩])).renderCount =
      (goodMemoMount [⟨0, "Item 0", 5, "A"⟩]).renderCount + 1 ∧
    (badClickUnrelated [⟨0, "Item 0", 5, "A"⟩] (badMemoMount [⟨0, "Item 0", 5, "A"⟩])).computations =
      (badMemoMount [⟨0, "Item 0", 5, "A"⟩]).computations + 1 ∧
    (badClickUnrelated [⟨0, "Item 0", 5, "A"⟩] (badMemoMount [⟨0, "Item 0", 5, "A"⟩])).renderCount =
      (badClickUnrelated [⟨0, "Item 0", 5, "A"⟩] (badMemoMount [⟨0, "Item 0", 5, "A"⟩])).computations :=
  c5_unrelated_update_counts [⟨0, "Item 0", 5, "A"⟩]
    (goodMemoMount [⟨0, "Item 0", 5, "A"⟩]) (badMemoMount [⟨0, "Item 0", 5, "A"⟩])
    (by decide) (by decide)

end FearingReRenders

namespace ContextMisuse

/-- Render counts of the bad (single God-context) design's two consumers,
plus the number of interval ticks delivered so far.  On every tick the
provider's `setCurrentTime` produces a fresh `{ user, currentTime }` context
value, so every consumer of `BadGlobalContext` re-renders. -/
structure BadCtxState where
  userRenders : Nat
  clockRenders : Nat
  ticks : Nat
deriving Repr, DecidableEq

/-- After mounting the bad implementation each consumer has completed its
first render pass. -/
def badCtxMount : BadCtxState := ⟨1, 1, 0⟩

/-- One 1-second interval tick under the God context: the combined context
value changes, so both `BadUserProfile` and `BadClockDisplay` re-render. -/
def badCtxTick (st : BadCtxState) : BadCtxState :=
  ⟨st.userRenders + 1, st.clockRenders + 1, st.ticks + 1⟩

/-- Render counts of the good (split-context) design's two consumers. -/
structure GoodCtxState where
  userRenders : Nat
  clockRenders : Nat
  ticks : Nat
deriving Repr, DecidableEq

/-- After mounting the good implementation each consumer has completed its
first render pass. -/
def goodCtxMount : GoodCtxState := ⟨1, 1, 0⟩

/-- One tick under split contexts: only `TimeContext`'s value changes, so only
`GoodClockDisplay` re-renders; `GoodUserProfile` subscribes to the stable
`UserContext` only and is untouched (the time provider re-renders with the
same `children` element, so the subtree is not re-rendered). -/
def goodCtxTick (st : GoodCtxState) : GoodCtxState :=
  ⟨st.userRenders, st.clockRenders + 1, st.ticks + 1⟩

/-- Apply `n` timer ticks to the bad design. -/
def badCtxTicks : Nat → BadCtxState → BadCtxState
  | 0, st => st
  | n + 1, st => badCtxTicks n (badCtxTick st)

/-- Apply `n` timer ticks to the good design. -/
def goodCtxTicks : Nat → GoodCtxState → GoodCtxState
  | 0, st => st
  | n + 1, st => goodCtxTicks n (goodCtxTick st)

/-- C4: after the frequently-changing time slice has updated 5 times, the
consumer subscribed only to the static user slice shows render count exactly 1
in the split-context design, while the God-context design's equivalent
consumer shows render count 6 ≥ 5 under the same 5 ticks. -/
theorem c4_static_consumer_renders :
    (goodCtxTicks 5 goodCtxMount).userRenders = 1 ∧
    5 ≤ (badCtxTicks 5 badCtxMount).userRenders := by
  refine ⟨rfl, by decide⟩

/-- A component owning a repeating interval or pending timeout, as in
`BadGlobalProvider`, `GoodTimeProvider` (`setInterval` + `clearInterval`
cleanup) and `ExpensiveComponent` (`setTimeout` + `clearTimeout` cleanup):
whether it is mounted, whether its timer is still registered with the host,
and how many timer-driven state updates it has received. -/
structure TimerComp where
  mounted : Bool
  timerActive : Bool
  updates : Nat
deriving Repr, DecidableEq

/-- Mounting runs the effect body, registering the timer. -/
def timerMount : TimerComp := ⟨true, true, 0⟩

/-- Unmounting runs the effect cleanup in the same step: the timer is
cancelled (`clearInterval`/`clearTimeout`) synchronously with the unmount. -/
def timerUnmount (c : TimerComp) : TimerComp :=
  { mounted := false, timerActive := false, updates := c.updates }

/-- A timer firing: it delivers a state update (counter increment) only if the
registration is still active. -/
def timerFire (c : TimerComp) : TimerComp :=
  if c.timerActive then { c with updates := c.updates + 1 } else c

/-- Apply `n` timer firings in sequence. -/
def timerFires : Nat → TimerComp → TimerComp
  | 0, c => c
  | n + 1, c => timerFires n (timerFire c)

/-- C9: unmounting a component that registered a timer cancels the timer in
the same step (synchronously), and no matter how many timer firings follow,
its state — in particular its update counter — never changes again. -/
theorem c9_unmount_cancels_timer (c : TimerComp) (n : Nat) :
    (timerUnmount c).timerActive = false ∧
    timerFires n (timerUnmount c) = timerUnmount c ∧
    (timerFires n (timerUnmount c)).updates = c.updates := by
  have hfix : ∀ m, timerFires m (timerUnmount c) = timerUnmount c := by
    intro m
    induction m with
    | zero => rfl
    | succ k ih =>
      have hstep : timerFire (timerUnmount c) = timerUnmount c := by
        simp [timerFire, timerUnmount]
      calc timerFires (k + 1) (timerUnmount c)
          = timerFires k (timerFire (timerUnmount c)) := rfl
        _ = timerFires k (timerUnmount c) := by rw [hstep]
        _ = timerUnmount c := ih
  refine ⟨rfl, hfix n, ?_⟩
  rw [hfix n]
  rfl

end ContextMisuse

namespace UseEffectRedundancy

/-- State of `BadUserCard`: the name props it receives, the `fullName` kept in
`useState` and synchronized by a `useEffect` on `[firstName, lastName]`, the
effect-run counter, the flash flag, and the (meta-level) render counter. -/
structure BadCard where
  firstName : String
  lastName : String
  fullName : String
  effectRunCount : Nat
  isFlashing : Bool
  renderCount : Nat
deriving Repr, DecidableEq

/-- A parent input change delivers new name props to the card. -/
def badSetProps (c : BadCard) (f l : String) : BadCard :=
  { c with firstName := f, lastName := l }

/-- One render pass of the bad card (the body is a pure read of its state). -/
def badRenderPass (c : BadCard) : BadCard :=
  { c with renderCount := c.renderCount + 1 }

/-- The sync effect body, run after a render whose `[firstName, lastName]`
differ from the previous render's: `setIsFlashing(true)`,
`setFullName(firstName + " " + lastName)`, `setEffectRunCount(prev + 1)`. -/
def badSyncEffect (c : BadCard) : BadCard :=
  { c with
    isFlashing := true,
    fullName := c.firstName ++ " " ++ c.lastName,
    effectRunCount := c.effectRunCount + 1 }

/-- What the bad card displays for the full name:
`{fullName || '(empty - waiting for effect...)'}`. -/
def badDisplayName (c : BadCard) : String :=
  if c.fullName == "" then "(empty - waiting for effect...)" else c.fullName

/-- Processing one input change to quiescence in the bad card: the new props
arrive, the card renders (still showing the old `fullName`), the sync effect
fires because its dependencies changed, and the state updates it batches
trigger a second render, after which the dependencies match and no further
render is needed. -/
def badChange (c : BadCard) (f l : String) : BadCard :=
  badRenderPass (badSyncEffect (badRenderPass (badSetProps c f l)))

/-- State of `GoodUserCard`: only the props and the render counter —
`fullName` is derived in the render body, not stored. -/
structure GoodCard where
  firstName : String
  lastName : String
  renderCount : Nat
deriving Repr, DecidableEq

/-- The derived value computed during render:
`const fullName = `${firstName} ${lastName}``. -/
def goodFullName (c : GoodCard) : String := c.firstName ++ " " ++ c.lastName

/-- Processing one input change in the good card: the new props arrive and the
card renders once; the displayed full name is already derived from the new
props within that same render. -/
def goodChange (c : GoodCard) (f l : String) : GoodCard :=
  { firstName := f, lastName := l, renderCount := c.renderCount + 1 }

/-- C3: for every pair of input strings, the good card's displayed full name
equals `first ++ " " ++ last` in the very render that processed the change and
its render count advances by exactly 1; the bad card takes exactly 2 renders
to converge — during the first render after the change it still holds the old
`fullName`, and only after the sync effect and the second render does its
`fullName` equal `first ++ " " ++ last`. -/
theorem c3_derived_state_renders (g : GoodCard) (b : BadCard) (f l : String) :
    goodFullName (goodChange g f l) = f ++ " " ++ l ∧
    (goodChange g f l).renderCount = g.renderCount + 1 ∧
    (badRenderPass (badSetProps b f l)).fullName = b.fullName ∧
    (badChange b f l).fullName = f ++ " " ++ l ∧
    (badChange b f l).renderCount = b.renderCount + 2 := by
  refine ⟨rfl, rfl, rfl, rfl, rfl⟩

end UseEffectRedundancy

namespace TogglePage

/-- Per-mount state of the memoization page's `BadImplementation`:
`useState('')`, `useState(0)`, `useState(0)`. -/
structure BadImplState where
  inputValue : String
  renderCount : Nat
  lastRenderTime : Nat
deriving Repr, DecidableEq

/-- Initial values of the bad variant's `useState` hooks on a fresh mount. -/
def badImplInitial : BadImplState := ⟨"", 0, 0⟩

/-- Per-mount state of `GoodImplementation` (its own render counter) together
with the colocated `InputComponent` state. -/
structure GoodImplState where
  renderCount : Nat
  inputValue : String
deriving Repr, DecidableEq

/-- Initial values of the good variant's hooks on a fresh mount. -/
def goodImplInitial : GoodImplState := ⟨0, ""⟩

/-- State of a topic page: the `showGood` toggle and the state of whichever
variant is mounted (`some` exactly for the mounted variant, since
`{!showGood ? <BadImplementation /> : <GoodImplementation />}` mounts exactly
one of the two and an unmounted component's state is discarded). -/
structure PageState where
  showGood : Bool
  badState : Option BadImplState
  goodState : Option GoodImplState
deriving Repr, DecidableEq

/-- Mount/unmount events of the two variants, for observing toggling. -/
inductive MountEvent where
  | mountBad
  | unmountBad
  | mountGood
  | unmountGood
deriving Repr, DecidableEq

/-- A topic page mounts with `useState(false)`: the bad variant is shown. -/
def pageInitial : PageState :=
  ⟨false, some badImplInitial, none⟩

/-- The toggle setter `setToggle(b)` (the `onToggle`/`setShowGood` passed to the header's two
buttons): if the toggle already holds `b` the state update is a no-op (same
value, no re-render, tree unchanged — and even on a re-render the conditional
yields the same component in the same position, so nothing mounts or
unmounts); otherwise the previously shown variant unmounts, discarding its
state, and the other variant mounts from its initial state. -/
def setToggle (st : PageState) (b : Bool) : PageState × List MountEvent :=
  if st.showGood == b then (st, [])
  else if b then
    (⟨true, none, some goodImplInitial⟩, [MountEvent.unmountBad, MountEvent.mountGood])
  else
    (⟨false, some badImplInitial, none⟩, [MountEvent.unmountGood, MountEvent.mountBad])

/-- User events on a topic page: clicking one of the two header buttons,
typing into the mounted bad variant's input, or a completed render pass of the
mounted variant bumping its render counter. -/
inductive PageOp where
  | toggle (b : Bool)
  | typeBad (s : String)
  | typeGood (s : String)
  | renderBad
  | renderGood
deriving Repr, DecidableEq

/-- Apply one user event to the page. -/
def applyOp (st : PageState) : PageOp → PageState
  | PageOp.toggle b => (setToggle st b).1
  | PageOp.typeBad s =>
    match st.badState with
    | some bs => { st with badState := some { bs with inputValue := s } }
    | none => st
  | PageOp.typeGood s =>
    match st.goodState with
    | some gs => { st with goodState := some { gs with inputValue := s } }
    | none => st
  | PageOp.renderBad =>
    match st.badState with
    | some bs => { st with badState := some { bs with renderCount := bs.renderCount + 1 } }
    | none => st
  | PageOp.renderGood =>
    match st.goodState with
    | some gs => { st with goodState := some { gs with renderCount := gs.renderCount + 1 } }
    | none => st

/-- Run a topic page from mount through a sequence of user events. -/
def runPage (ops : List PageOp) : PageState :=
  ops.foldl applyOp pageInitial

/-- Exactly one variant is mounted: the bad variant's state exists exactly
when `showGood` is false, the good variant's exactly when it is true. -/
def exclusiveMount (st : PageState) : Prop :=
  (st.badState.isSome = !st.showGood) ∧ (st.goodState.isSome = st.showGood)

theorem applyOp_exclusive (st : PageState) (op : PageOp) (h : exclusiveMount st) :
    exclusiveMount (applyOp st op) := by
  obtain ⟨hb, hg⟩ := h
  cases op with
  | toggle b =>
    by_cases hbeq : st.showGood = b
    · have heq : applyOp st (PageOp.toggle b) = st := by
        simp [applyOp, setToggle, hbeq]
      rw [heq]
      exact ⟨hb, hg⟩
    · cases b <;> simp_all [applyOp, setToggle, exclusiveMount]
  | typeBad s => cases hcase : st.badState <;> simp_all [applyOp, exclusiveMount]
  | typeGood s => cases hcase : st.goodState <;> simp_all [applyOp, exclusiveMount]
  | renderBad => cases hcase : st.badState <;> simp_all [applyOp, exclusiveMount]
  | renderGood => cases hcase : st.goodState <;> simp_all [applyOp, exclusiveMount]

theorem runPage_exclusive (ops : List PageOp) : exclusiveMount (runPage ops) := by
  suffices h : ∀ st, exclusiveMount st → exclusiveMount (ops.foldl applyOp st) from
    h pageInitial ⟨rfl, rfl⟩
  induction ops with
  | nil => exact fun st h => h
  | cons op rest ih => exact fun st h => ih _ (applyOp_exclusive st op h)

/-- C6: in every state a topic page can reach, exactly one of the two demo
variants is mounted (the bad variant's state is present iff `showGood` is
false and the good variant's iff it is true — never both, never neither), and
`setToggle` is idempotent: calling it with the value the toggle already holds
leaves the state unchanged and performs no mount or unmount. -/
theorem c6_exclusive_mount_idempotent_toggle (ops : List PageOp) (b : Bool) :
    exclusiveMount (runPage ops) ∧
    ((runPage ops).showGood = b → setToggle (runPage ops) b = (runPage ops, [])) := by
  refine ⟨runPage_exclusive ops, ?_⟩
  intro hb
  simp [setToggle, hb]

/-- Witness for C6 at a concrete reachable state: the freshly mounted page
(empty event list) holds `showGood = false`, and `setToggle` with `false`
changes nothing and emits no mount/unmount event. -/
theorem c6_exclusive_mount_idempotent_toggle_witness :
    exclusiveMount (runPage []) ∧
    setToggle (runPage []) false = (runPage [], []) := by
  have h := c6_exclusive_mount_idempotent_toggle [] false
  exact ⟨h.1, h.2 rfl⟩

/-- C7: from any page state whatsoever — whatever the mounted bad variant's
counters and input had accumulated — toggling bad→good→bad leaves the freshly
remounted bad variant in its initial state: render counter 0, empty input,
`lastRenderTime` 0, with no leakage from the prior mount. -/
theorem c7_round_trip_resets_bad_state (st : PageState) :
    ((setToggle (setToggle st true).1 false).1).badState = some badImplInitial ∧
    badImplInitial.renderCount = 0 ∧
    badImplInitial.inputValue = "" ∧
    badImplInitial.lastRenderTime = 0 := by
  refine ⟨?_, rfl, rfl, rfl⟩
  by_cases h : st.showGood
  · simp [setToggle, h]
  · simp [setToggle, h]

end TogglePage
